import Mathlib

/-!
MetaBridge — verification of the media-item resolution and placement pipeline

This file is a shallow embedding of the core of the MetaBridge repository:

* `lib/MediaProcessor.py` — `MediaProcessor.process_media_item`, `_copy_image`,
  `_copy_non_image`, `_generate_filename`, `_generate_save_path`,
  `_extract_taken_timestamp`;
* `MetaBridge.py` — the sticker-record synthesis of `process_stickers`.

Python strings are Lean `String`s; Python string methods used by the source
(`startswith`, `lower`, f-string concatenation) and the `os.path` helpers
(`join`, `split`, `splitext`, `dirname`) are embedded below, operating on
`String.data` (the underlying `List Char`).

The filesystem and the external libraries (PIL / piexif / shutil) are modelled
by an environment `Env`: a finite list of existing destination paths (consulted
by `os.path.exists` in `_generate_save_path`), the current clock time
(`time.time()`), and boolean outcomes for the external calls that the source
wraps in `try`/`except` (EXIF load, EXIF save, raw copy).  Exceptions raised by
`datetime.fromtimestamp` are modelled from the data: the call raises exactly
when the timestamp falls outside Python's representable `datetime` range.

Filesystem writes are recorded as a trace of `FileOp`s; the processor state is
the `processed_items` set together with the constructor arguments.
-/

namespace MetaBridge

/-! ## Python string / os.path helpers -/

/-- Python `s.startswith(pre)`. -/
def pyStartsWith (s pre : String) : Bool :=
  pre.data.isPrefixOf s.data

/-- Python `s.endswith(suf)`. -/
def pyEndsWith (s suf : String) : Bool :=
  suf.data.isSuffixOf s.data

/-- Python `s.lower()` (ASCII case, which is all the source ever lowers). -/
def pyLower (s : String) : String :=
  ⟨s.data.map Char.toLower⟩

/-- The part of `os.path.join a b` that prepends the head: `""` when the head
is empty, the head itself when it already ends in a separator, otherwise the
head followed by `"/"`. -/
def joinHead (a : String) : String :=
  if a = "" then "" else if pyEndsWith a "/" then a else a ++ "/"

/-- Python `os.path.join(a, b)` (posix, two arguments): an absolute second
component discards the first, otherwise the two are joined with `"/"`. -/
def pathJoin (a b : String) : String :=
  if pyStartsWith b "/" then b else joinHead a ++ b

/-- Index of the last occurrence of `c` in `cs`, if any. -/
def lastIdxOf (c : Char) : List Char → Option Nat
  | [] => none
  | x :: xs =>
    match lastIdxOf c xs with
    | some i => some (i + 1)
    | none => if x = c then some 0 else none

/-- Python `os.path.splitext` on the underlying character list: split at the
last dot, provided it comes after the last separator and the characters
between the separator and the dot are not all dots (so `".bashrc"` has no
extension). -/
def splitextCore (cs : List Char) : List Char × List Char :=
  match lastIdxOf '.' cs with
  | none => (cs, [])
  | some di =>
    let si : Int := match lastIdxOf '/' cs with
      | none => -1
      | some s => (s : Int)
    if si < (di : Int) then
      if ((cs.take di).drop (si + 1).toNat).any (fun c => c ≠ '.') then
        (cs.take di, cs.drop di)
      else (cs, [])
    else (cs, [])

/-- Python `os.path.splitext`. -/
def splitext (p : String) : String × String :=
  let r := splitextCore p.data
  (⟨r.1⟩, ⟨r.2⟩)

/-- Python `os.path.split(p)[1]`: everything after the last separator. -/
def basename (p : String) : String :=
  match lastIdxOf '/' p.data with
  | none => p
  | some i => ⟨p.data.drop (i + 1)⟩

/-- Python `os.path.dirname`: everything up to the last separator, with
trailing separators stripped unless the head is all separators. -/
def dirname (p : String) : String :=
  match lastIdxOf '/' p.data with
  | none => ""
  | some i =>
    let head := p.data.take (i + 1)
    if head.all (fun c => c = '/') then ⟨head⟩
    else ⟨(head.reverse.dropWhile (fun c => c = '/')).reverse⟩

/-! ## Calendar arithmetic for `datetime.fromtimestamp(ts, tz=la_timezone)`

The source formats every timestamp in the fixed `pytz` timezone
`America/Los_Angeles`.  We embed the proleptic-Gregorian conversion
(days-from-civil and civil-from-days) and the post-2007 United States DST
rule that governs that zone for contemporary timestamps: daylight time from
the second Sunday of March at 10:00 UTC to the first Sunday of November at
09:00 UTC, offsets −7 h (daylight) and −8 h (standard). -/

/-- Days since the Unix epoch of the civil date `y-m-d` (proleptic
Gregorian). -/
def daysFromCivil (y : Int) (m d : Nat) : Int :=
  let y' : Int := if m ≤ 2 then y - 1 else y
  let era : Int := y'.ediv 400
  let yoe : Nat := (y' - era * 400).toNat
  let mp : Nat := if m > 2 then m - 3 else m + 9
  let doy : Nat := (153 * mp + 2) / 5 + d - 1
  let doe : Nat := yoe * 365 + yoe / 4 - yoe / 100 + doy
  era * 146097 + (doe : Int) - 719468

/-- Civil date `(y, m, d)` of a count of days since the Unix epoch. -/
def civilFromDays (z0 : Int) : Int × Nat × Nat :=
  let z := z0 + 719468
  let era : Int := z.ediv 146097
  let doe : Nat := (z - era * 146097).toNat
  let yoe : Nat := (doe - doe / 1460 + doe / 36524 - doe / 146096) / 365
  let doy : Nat := doe - (365 * yoe + yoe / 4 - yoe / 100)
  let mp : Nat := (5 * doy + 2) / 153
  let d : Nat := doy - (153 * mp + 2) / 5 + 1
  let m : Nat := if mp < 10 then mp + 3 else mp - 9
  (era * 400 + (yoe : Int) + (if m ≤ 2 then 1 else 0), m, d)

/-- UTC instant at which US daylight saving time begins in year `y`
(second Sunday of March, 02:00 standard = 10:00 UTC). -/
def dstStartEpoch (y : Int) : Int :=
  let mar1 := daysFromCivil y 3 1
  let dow := (mar1 + 4).emod 7
  (mar1 + (7 - dow).emod 7 + 7) * 86400 + 10 * 3600

/-- UTC instant at which US daylight saving time ends in year `y`
(first Sunday of November, 02:00 daylight = 09:00 UTC). -/
def dstEndEpoch (y : Int) : Int :=
  let nov1 := daysFromCivil y 11 1
  let dow := (nov1 + 4).emod 7
  (nov1 + (7 - dow).emod 7) * 86400 + 9 * 3600

/-- Whether `America/Los_Angeles` observes daylight time at epoch second
`ts`. -/
def laIsDST (ts : Int) : Bool :=
  let y := (civilFromDays (ts.ediv 86400)).1
  decide (dstStartEpoch y ≤ ts) && decide (ts < dstEndEpoch y)

/-- UTC offset (in seconds) of `America/Los_Angeles` at epoch second `ts`. -/
def laUtcOffset (ts : Int) : Int :=
  if laIsDST ts then -7 * 3600 else -8 * 3600

/-- Zero-pad a number below 100 to two digits (strftime `%m`, `%d`, `%H`,
`%M`, `%S`). -/
def pad2 (n : Nat) : String :=
  if n < 10 then "0" ++ toString n else toString n

/-- Python `datetime.fromtimestamp(ts, tz=la_timezone).strftime("%Y-%m-%d_%H.%M.%S")`:
the timestamp rendered in `America/Los_Angeles` local time. -/
def formatLATimestamp (ts : Int) : String :=
  let lt := ts + laUtcOffset ts
  let days := lt.ediv 86400
  let secs := (lt.emod 86400).toNat
  let c := civilFromDays days
  toString c.1 ++ "-" ++ pad2 c.2.1 ++ "-" ++ pad2 c.2.2 ++ "_" ++
    pad2 (secs / 3600) ++ "." ++ pad2 (secs % 3600 / 60) ++ "." ++ pad2 (secs % 60)

/-- Smallest epoch second representable by a Python `datetime`
(0001-01-01 00:00 UTC).  `datetime.fromtimestamp` raises outside the
representable range. -/
def MIN_DATETIME_EPOCH : Int := -62135596800

/-- Largest epoch second representable by a Python `datetime`
(9999-12-31 23:59:59 UTC). -/
def MAX_DATETIME_EPOCH : Int := 253402300799

/-- Whether `datetime.fromtimestamp(ts, tz=...)` succeeds (up to the
sub-day timezone shift at the two extremes, far from any input this
development evaluates). -/
def fromtimestampOk (ts : Int) : Bool :=
  decide (MIN_DATETIME_EPOCH ≤ ts) && decide (ts ≤ MAX_DATETIME_EPOCH)

/-! ## Data model

Raw media records as the JSON manifests provide them (`data.get(key, default)`
navigation is embedded with `Option` fields), the processor state of
`MediaProcessor.__init__`, the environment standing for the external world,
and the trace of filesystem writes. -/

/-- One entry of `media_metadata.photo_metadata.exif_data`: a dictionary that
may or may not contain the key `taken_timestamp`. -/
structure ExifEntry where
  taken_timestamp : Option Int
deriving Repr, DecidableEq

/-- The `photo_metadata` dictionary. -/
structure PhotoMetadata where
  exif_data : Option (List ExifEntry)
deriving Repr, DecidableEq

/-- The `media_metadata` dictionary. -/
structure MediaMetadata where
  photo_metadata : Option PhotoMetadata
deriving Repr, DecidableEq

/-- A raw media record handed to `process_media_item`; each field is `none`
when the corresponding JSON key is absent. -/
structure RawRecord where
  uri : Option String
  description : Option String
  creation_timestamp : Option Int
  media_metadata : Option MediaMetadata
deriving Repr, DecidableEq

/-- The mutable state of a `MediaProcessor` instance: the constructor
arguments and the `processed_items` set of (URI path, save directory)
pairs.  The set is kept as a duplicate-free list; `setAdd` mirrors
`set.add`. -/
structure State where
  base_path : String
  save_path : String
  is_dry_run : Bool
  processed : List (String × String)
deriving Repr, DecidableEq

/-- Python `set.add`: insert a pair unless it is already present. -/
def setAdd (p : String × String) (s : List (String × String)) :
    List (String × String) :=
  if p ∈ s then s else p :: s

/-- Embeds `MediaProcessor.get_total_processed`: `len(self.processed_items)`. -/
def get_total_processed (st : State) : Nat :=
  st.processed.length

/-- The external world: the set of paths that `os.path.exists` reports in the
destination (a finite list), the clock value `int(time.time())`, and the
outcomes of the external library calls the source wraps in `try`/`except`
(`ExifImageHandler(...)` construction, EXIF save, `shutil.copy`). -/
structure Env where
  fs : List String
  now : Int
  exifLoadOk : Bool
  exifSaveOk : Bool
  copyOk : Bool
deriving Repr, DecidableEq

/-- A filesystem write performed by the Metadata Writer.  `exifSave` stands
for `ExifImageHandler.save` (which also creates parent directories and resets
the file times); the non-image branch records its `os.makedirs`,
`shutil.copy` and `os.utime` calls. -/
inductive FileOp where
  | makedirs (dir : String)
  | exifSave (src dst : String) (ts : Int) (desc : String)
  | copy (src dst : String)
  | utime (path : String) (ts : Int)
deriving Repr, DecidableEq

/-- An exception escaping a processor method. -/
inductive PyError where
  | unboundLocalError
deriving Repr, DecidableEq

/-- The canonical metadata record `self.metadata` built by
`process_media_item`. -/
structure Metadata where
  uri_path : String
  description : String
  creation_timestamp : Int
  taken_timestamp : Option Int
  save_directory : String
  timestamp : Int
deriving Repr, DecidableEq

/-! ## The Media Resolver -/

/-- First entry of `exif_data` that contains the key `taken_timestamp`
(the loop body of `_extract_taken_timestamp`). -/
def findTaken : List ExifEntry → Option Int
  | [] => none
  | e :: rest =>
    match e.taken_timestamp with
    | some v => some v
    | none => findTaken rest

/-- Embeds `MediaProcessor._extract_taken_timestamp`: tolerant navigation through
`media_metadata.photo_metadata.exif_data` (`.get(key, {})` at every level,
`.get("exif_data", [])` at the last), then the first entry holding the key. -/
def extract_taken_timestamp (d : RawRecord) : Option Int :=
  match d.media_metadata with
  | none => none
  | some mm =>
    match mm.photo_metadata with
    | none => none
    | some pm => findTaken (pm.exif_data.getD [])

/-- Python `x or y` for `x : Optional[int]`: `y` when `x` is `None` *or*
zero (an `int` is falsy exactly when it is `0`). -/
def pyOrInt (a : Option Int) (b : Int) : Int :=
  match a with
  | none => b
  | some v => if v = 0 then b else v

/-- The `self.metadata` dictionary as `process_media_item` builds it:
defaults `''`/`int(time.time())` for missing keys, then
`timestamp = taken_timestamp or creation_timestamp`. -/
def mkMetadata (env : Env) (base_path : String) (d : RawRecord)
    (save_directory : String) : Metadata :=
  let creation := d.creation_timestamp.getD env.now
  let taken := extract_taken_timestamp d
  { uri_path := pathJoin base_path (d.uri.getD "")
    description := d.description.getD ""
    creation_timestamp := creation
    taken_timestamp := taken
    save_directory := save_directory
    timestamp := pyOrInt taken creation }

/-! ## Filename and save-path generation -/

/-- Embeds `MediaProcessor._generate_filename`: the timestamp rendered in the Los
Angeles timezone, with the extension of the source file name appended
unchanged. -/
def generate_filename (md : Metadata) : String :=
  let uri_file_name := basename md.uri_path
  let file_ext := (splitext uri_file_name).2
  formatLATimestamp md.timestamp ++ file_ext

/-- The conflict file name `f"{file_name}_{counter}{file_ext}"`. -/
def conflictName (file_name : String) (counter : Nat) (file_ext : String) :
    String :=
  file_name ++ "_" ++ toString counter ++ file_ext

/-- The `while os.path.exists(file_path)` loop of `_generate_save_path`,
with explicit fuel.  Each iteration replaces the candidate by
`directory/file_name_counter file_ext` and increments the counter. -/
def gspLoop (fs : List String) (directory file_name file_ext : String) :
    String → Nat → Nat → String
  | file_path, _, 0 => file_path
  | file_path, counter, fuel + 1 =>
    if file_path ∈ fs then
      gspLoop fs directory file_name file_ext
        (pathJoin directory (conflictName file_name counter file_ext))
        (counter + 1) fuel
    else file_path

/-- Embeds `MediaProcessor._generate_save_path`: starting from
`directory/base_file_name`, append `_1`, `_2`, … before the extension until
the candidate does not exist.  Fuel `fs.length + 1` is enough to reach a
free candidate (`gspLoop_fresh` below), so the embedding agrees with the
unbounded Python loop. -/
def generate_save_path (fs : List String) (directory base_file_name : String) :
    String :=
  let s := splitext base_file_name
  gspLoop fs directory s.1 s.2 (pathJoin directory base_file_name) 1
    (fs.length + 1)

/-! ## The Metadata Writer -/

/-- Embeds `MediaProcessor._copy_non_image`: dry-run returns immediately; otherwise
generate the name and path, create the parent directory, copy, and reset the
file times, adding the pair to `processed_items` on success.  A raised
exception (`datetime.fromtimestamp` out of range during
`_generate_filename`, or a failed copy) is caught and logged, leaving the
state unchanged. -/
def copy_non_image (env : Env) (md : Metadata) (st : State) :
    State × List FileOp :=
  if st.is_dry_run then (st, [])
  else if fromtimestampOk md.timestamp = false then (st, [])
  else
    let base_file_name := generate_filename md
    let save_path := generate_save_path env.fs md.save_directory base_file_name
    if env.copyOk = false then (st, [])
    else
      ({ st with
          processed := setAdd (md.uri_path, md.save_directory) st.processed },
        [FileOp.makedirs (dirname save_path),
         FileOp.copy md.uri_path save_path,
         FileOp.utime save_path md.timestamp])

/-- Embeds `MediaProcessor._copy_image`: dry-run returns immediately.  The `try`
block generates the name and path, loads the image and its EXIF block, sets
the tags and saves.  The `except` handler logs
`f"Copying image without metadata changes: {save_path}"` and falls back to
`_copy_non_image` — but when the exception was raised inside
`_generate_filename` (timestamp outside the `datetime` range) the local
`save_path` is still unbound, so the handler itself raises
`UnboundLocalError`, which propagates to the caller. -/
def copy_image (env : Env) (md : Metadata) (st : State) :
    Option PyError × State × List FileOp :=
  if st.is_dry_run then (none, st, [])
  else if fromtimestampOk md.timestamp = false then
    (some PyError.unboundLocalError, st, [])
  else
    let save_path := generate_save_path env.fs md.save_directory
      (generate_filename md)
    if env.exifLoadOk = false || env.exifSaveOk = false then
      let r := copy_non_image env md st
      (none, r.1, r.2)
    else
      (none,
        { st with
            processed := setAdd (md.uri_path, md.save_directory) st.processed },
        [FileOp.exifSave md.uri_path save_path md.timestamp md.description])

/-- The image extensions of `process_media_item`. -/
def imageExts : List String :=
  [".jpg", ".jpeg", ".png", ".gif", ".bmp", ".tiff", ".webp"]

/-- Embeds `MediaProcessor.process_media_item`: skip non-local URIs, build
`self.metadata`, skip already-processed (URI path, save directory) pairs,
then dispatch on the lower-cased extension of the URI path. -/
def process_media_item (env : Env) (d : RawRecord) (save_directory : String)
    (st : State) : Option PyError × State × List FileOp :=
  let uri := d.uri.getD ""
  if pyStartsWith uri "your_facebook_activity" = false then (none, st, [])
  else
    let md := mkMetadata env st.base_path d save_directory
    if (md.uri_path, md.save_directory) ∈ st.processed then (none, st, [])
    else
      let file_extension := pyLower (splitext md.uri_path).2
      if file_extension ∈ imageExts then copy_image env md st
      else
        let r := copy_non_image env md st
        (none, r.1, r.2)

/-- Run a sequence of (record, save directory) items through
`process_media_item`, accumulating the trace (the per-category loops of
`MetaBridge.py`). -/
def run_items (env : Env) (items : List (RawRecord × String)) (st : State) :
    State × List FileOp :=
  match items with
  | [] => (st, [])
  | (d, dir) :: rest =>
    let r := process_media_item env d dir st
    let r' := run_items env rest r.2.1
    (r'.1, r.2.2 ++ r'.2)

/-! ## Sticker synthesis (`MetaBridge.process_stickers`) -/

/-- The fixed sticker URI base of `process_stickers`. -/
def sticker_uri_base : String :=
  "your_facebook_activity/posts/media/stickers_used/"

/-- The record `process_stickers` synthesizes for a regular file in the
sticker directory: `uri` joined under the sticker base, empty description,
and `int(os.path.getctime(file_path))` as creation timestamp. -/
def sticker_record (file_name : String) (ctime : Int) : RawRecord :=
  { uri := some (pathJoin sticker_uri_base file_name)
    description := some ""
    creation_timestamp := some ctime
    media_metadata := none }

/-! ## Decimal numerals

The conflict loop of `_generate_save_path` distinguishes its candidates only
through the decimal numeral of the counter, so we need that `Nat.repr` is
injective.  We prove it by decoding the digit string back to the number. -/

/-- Decimal decoding of a digit string, most significant digit first. -/
def decodeDec (cs : List Char) : Nat :=
  cs.foldl (fun a c => 10 * a + (c.toNat - 48)) 0

theorem toDigitsCore_acc (b : Nat) :
    ∀ (fuel n : Nat) (ds : List Char),
      Nat.toDigitsCore b fuel n ds = Nat.toDigitsCore b fuel n [] ++ ds := by
  intro fuel
  induction fuel with
  | zero => intro n ds; simp [Nat.toDigitsCore]
  | succ fuel ih =>
    intro n ds
    simp only [Nat.toDigitsCore]
    by_cases h : n / b = 0
    · simp [h]
    · simp only [h, if_false]
      rw [ih (n / b) (Nat.digitChar (n % b) :: ds),
        ih (n / b) [Nat.digitChar (n % b)]]
      simp

theorem toDigitsCore_fuel (b : Nat) (hb : 2 ≤ b) :
    ∀ (f₁ f₂ n : Nat), n < f₁ → n < f₂ →
      Nat.toDigitsCore b f₁ n [] = Nat.toDigitsCore b f₂ n [] := by
  intro f₁
  induction f₁ with
  | zero => intro f₂ n h1 _; omega
  | succ f₁ ih =>
    intro f₂ n h1 h2
    cases f₂ with
    | zero => omega
    | succ f₂ =>
      simp only [Nat.toDigitsCore]
      by_cases h : n / b = 0
      · simp [h]
      · simp only [h, if_false]
        rw [toDigitsCore_acc b f₁ (n / b), toDigitsCore_acc b f₂ (n / b)]
        have hn : 0 < n := by
          rcases Nat.eq_zero_or_pos n with h0 | h0
          · subst h0; simp at h
          · exact h0
        have hlt : n / b < n := Nat.div_lt_self hn (by omega)
        rw [ih f₂ (n / b) (by omega) (by omega)]

theorem decodeDec_append (xs : List Char) (d : Char) :
    decodeDec (xs ++ [d]) = 10 * decodeDec xs + (d.toNat - 48) := by
  simp [decodeDec, List.foldl_append]

theorem decode_digitChar (d : Nat) (h : d < 10) :
    (Nat.digitChar d).toNat - 48 = d := by
  interval_cases d <;> rfl

/-- One step of `Nat.toDigits 10`: the last digit is split off. -/
theorem toDigits_step (n : Nat) :
    Nat.toDigits 10 n =
      (if n / 10 = 0 then [] else Nat.toDigits 10 (n / 10)) ++
        [Nat.digitChar (n % 10)] := by
  by_cases h : n / 10 = 0
  · rw [if_pos h]
    unfold Nat.toDigits
    simp [Nat.toDigitsCore, h]
  · rw [if_neg h]
    show Nat.toDigitsCore 10 (n + 1) n [] = _
    have step : Nat.toDigitsCore 10 (n + 1) n []
        = Nat.toDigitsCore 10 n (n / 10) [Nat.digitChar (n % 10)] := by
      simp only [Nat.toDigitsCore, h, if_false]
    have hn : 0 < n := by
      rcases Nat.eq_zero_or_pos n with h0 | h0
      · subst h0; simp at h
      · exact h0
    rw [step, toDigitsCore_acc 10 n (n / 10),
      toDigitsCore_fuel 10 (by omega) n (n / 10 + 1) (n / 10)
        (Nat.div_lt_self hn (by omega)) (Nat.lt_succ_self _)]
    rfl

theorem decodeDec_toDigits (n : Nat) : decodeDec (Nat.toDigits 10 n) = n := by
  induction n using Nat.strong_induction_on with
  | _ n ih =>
    rw [toDigits_step]
    by_cases h : n / 10 = 0
    · rw [if_pos h]
      simp only [List.nil_append]
      have : decodeDec [Nat.digitChar (n % 10)] = n % 10 := by
        simp [decodeDec, decode_digitChar (n % 10) (by omega)]
      omega
    · rw [if_neg h, decodeDec_append,
        ih (n / 10) (Nat.div_lt_self (by omega) (by omega))]
      have := decode_digitChar (n % 10) (by omega)
      omega

theorem natRepr_inj {m n : Nat} (h : Nat.repr m = Nat.repr n) : m = n := by
  have h2 : Nat.toDigits 10 m = Nat.toDigits 10 n := congrArg String.data h
  have h3 := congrArg decodeDec h2
  rwa [decodeDec_toDigits, decodeDec_toDigits] at h3

theorem toDigits_ne_nil (n : Nat) : Nat.toDigits 10 n ≠ [] := by
  rw [toDigits_step]; simp

theorem natRepr_length_pos (n : Nat) : 1 ≤ (Nat.repr n).length := by
  have h := toDigits_ne_nil n
  have : 0 < (Nat.toDigits 10 n).length := List.length_pos.mpr h
  exact this

/-! ## String cancellation -/

theorem strCancelLeft {a b c : String} (h : a ++ b = a ++ c) : b = c := by
  apply String.ext
  have h2 := congrArg String.data h
  simp only [String.data_append] at h2
  exact List.append_cancel_left h2

theorem strCancelRight {a b c : String} (h : a ++ c = b ++ c) : a = b := by
  apply String.ext
  have h2 := congrArg String.data h
  simp only [String.data_append] at h2
  exact List.append_cancel_right h2

/-! ## The candidate paths of `_generate_save_path` are pairwise distinct -/

/-- The sequence of candidate paths the conflict loop tries: candidate `0`
is `directory/base` (with `base = file_name ++ file_ext`), candidate `k+1`
carries counter `k+1`. -/
def cand (directory file_name file_ext : String) : Nat → String
  | 0 => pathJoin directory (file_name ++ file_ext)
  | k + 1 => pathJoin directory (conflictName file_name (k + 1) file_ext)

theorem conflictName_data (name : String) (k : Nat) (ext : String) :
    (conflictName name k ext).data
      = name.data ++ '_' :: (Nat.toDigits 10 k ++ ext.data) := by
  simp only [conflictName, String.data_append]
  rw [show (toString k).data = Nat.toDigits 10 k from rfl]
  simp

theorem conflictName_length (name : String) (k : Nat) (ext : String) :
    (conflictName name k ext).length
      = name.length + 1 + (Nat.repr k).length + ext.length := by
  have h := congrArg List.length (conflictName_data name k ext)
  simp only [List.length_append, List.length_cons] at h
  show (conflictName name k ext).data.length = _
  rw [h]
  show _ = name.data.length + 1 + (Nat.toDigits 10 k).length + ext.data.length
  omega

/-- Whether a string starts with `'/'`, read off its character list. -/
theorem pyStartsWith_slash (s : String) :
    pyStartsWith s "/" = match s.data with
      | [] => false
      | c :: _ => '/' == c := by
  cases s with
  | mk data =>
    cases data with
    | nil => rfl
    | cons c cs => simp [pyStartsWith, List.isPrefixOf]

/-- A conflict name and the base name start with the same character (the
first character of `file_name`, or `'_'` when `file_name` is empty), so the
`os.path.join` branch taken is the same — and a conflict name never starts
with `'/'` unless the base name does. -/
theorem slash_base_of_slash_conflict (name : String) (k : Nat) (ext : String)
    (h : pyStartsWith (conflictName name k ext) "/" = true) :
    pyStartsWith (name ++ ext) "/" = true := by
  rw [pyStartsWith_slash] at h ⊢
  rw [show (name ++ ext).data = name.data ++ ext.data from rfl]
  have hd := conflictName_data name k ext
  cases hn : name.data with
  | nil =>
    rw [hn] at hd
    rw [hd] at h
    simp at h
  | cons c cs =>
    rw [hn] at hd
    rw [hd] at h
    simpa using h

/-- Two conflict names agree on the join branch. -/
theorem conflict_slash_eq (name : String) (j k : Nat) (ext : String) :
    pyStartsWith (conflictName name j ext) "/"
      = pyStartsWith (conflictName name k ext) "/" := by
  rw [pyStartsWith_slash, pyStartsWith_slash, conflictName_data,
    conflictName_data]
  cases hn : name.data with
  | nil => simp
  | cons c cs => simp

/-- Candidate `0` is always strictly shorter than any later candidate. -/
theorem cand_zero_length_lt (dir name ext : String) (k : Nat) :
    (cand dir name ext 0).length < (cand dir name ext (k + 1)).length := by
  have hb0 : (name ++ ext).length = name.length + ext.length :=
    String.length_append name ext
  have hbk := conflictName_length name (k + 1) ext
  have hr := natRepr_length_pos (k + 1)
  have hJK : (joinHead dir ++ conflictName name (k + 1) ext).length
      = (joinHead dir).length + (conflictName name (k + 1) ext).length :=
    String.length_append _ _
  have hJ0 : (joinHead dir ++ (name ++ ext)).length
      = (joinHead dir).length + (name ++ ext).length :=
    String.length_append _ _
  show (pathJoin dir (name ++ ext)).length
      < (pathJoin dir (conflictName name (k + 1) ext)).length
  unfold pathJoin
  by_cases h0 : pyStartsWith (name ++ ext) "/" = true
  · rw [if_pos h0]
    by_cases hk : pyStartsWith (conflictName name (k + 1) ext) "/" = true
    · rw [if_pos hk]; omega
    · rw [if_neg hk]; omega
  · rw [if_neg h0]
    by_cases hk : pyStartsWith (conflictName name (k + 1) ext) "/" = true
    · exact absurd (slash_base_of_slash_conflict name (k + 1) ext hk) h0
    · rw [if_neg hk]; omega

/-- Two candidates with distinct positive counters are distinct paths. -/
theorem cand_succ_inj (dir name ext : String) {j k : Nat}
    (h : cand dir name ext (j + 1) = cand dir name ext (k + 1)) : j = k := by
  have hbranch := conflict_slash_eq name (j + 1) (k + 1) ext
  have hbj : conflictName name (j + 1) ext = conflictName name (k + 1) ext := by
    revert h
    show pathJoin dir (conflictName name (j + 1) ext)
        = pathJoin dir (conflictName name (k + 1) ext) → _
    unfold pathJoin
    by_cases hj : pyStartsWith (conflictName name (j + 1) ext) "/" = true
    · rw [if_pos hj, if_pos (hbranch ▸ hj)]
      exact id
    · rw [if_neg hj, if_neg (fun hc => hj (hbranch ▸ hc))]
      exact strCancelLeft
  have hdata := congrArg String.data hbj
  rw [conflictName_data, conflictName_data] at hdata
  have h1 := List.append_cancel_left hdata
  have h2 : Nat.toDigits 10 (j + 1) ++ ext.data
      = Nat.toDigits 10 (k + 1) ++ ext.data := by
    injection h1
  have h3 := List.append_cancel_right h2
  have h4 := congrArg decodeDec h3
  rw [decodeDec_toDigits, decodeDec_toDigits] at h4
  omega

/-- The candidate sequence is injective. -/
theorem cand_inj (dir name ext : String) {j k : Nat}
    (h : cand dir name ext j = cand dir name ext k) : j = k := by
  match j, k with
  | 0, 0 => rfl
  | 0, k + 1 =>
    have := cand_zero_length_lt dir name ext k
    rw [h] at this
    omega
  | j + 1, 0 =>
    have := cand_zero_length_lt dir name ext j
    rw [h] at this
    omega
  | j + 1, k + 1 =>
    have := cand_succ_inj dir name ext h
    omega

/-! ## Freshness of `_generate_save_path` -/

/-- Pigeonhole for the conflict loop: with more fuel than there are blocking
entries, the loop stops at a candidate that does not exist. -/
theorem gspLoop_fresh (fs : List String) (dir name ext : String) :
    ∀ (fuel : Nat) (l : List String) (c : Nat), 1 ≤ c → l.length < fuel →
      (∀ k, c - 1 ≤ k → cand dir name ext k ∈ fs → cand dir name ext k ∈ l) →
      gspLoop fs dir name ext (cand dir name ext (c - 1)) c fuel ∉ fs := by
  intro fuel
  induction fuel with
  | zero => intro l c _ hl _; omega
  | succ fuel ih =>
    intro l c hc hl hinv
    simp only [gspLoop]
    by_cases hmem : cand dir name ext (c - 1) ∈ fs
    · rw [if_pos hmem]
      have hc1 : pathJoin dir (conflictName name c ext) = cand dir name ext c := by
        have he : c = (c - 1) + 1 := by omega
        rw [he]
        rfl
      have hin : cand dir name ext (c - 1) ∈ l := hinv (c - 1) (le_refl _) hmem
      have hlen : (l.erase (cand dir name ext (c - 1))).length = l.length - 1 :=
        List.length_erase_of_mem hin
      have hpos : 0 < l.length := List.length_pos.mpr (List.ne_nil_of_mem hin)
      have hlen2 : (l.erase (cand dir name ext (c - 1))).length < fuel := by omega
      have hinv2 : ∀ k, (c + 1) - 1 ≤ k → cand dir name ext k ∈ fs →
          cand dir name ext k ∈ l.erase (cand dir name ext (c - 1)) := by
        intro k hk hkfs
        have h1 : cand dir name ext k ∈ l := hinv k (by omega) hkfs
        have hne : cand dir name ext k ≠ cand dir name ext (c - 1) := by
          intro he
          have := cand_inj dir name ext he
          omega
        exact (List.mem_erase_of_ne hne).mpr h1
      have hstep := ih (l.erase (cand dir name ext (c - 1))) (c + 1)
        (by omega) hlen2 hinv2
      rw [hc1]
      simpa using hstep
    · rw [if_neg hmem]
      exact hmem

/-- Reassembling `os.path.splitext`: root plus extension is the whole name. -/
theorem splitext_append (p : String) : (splitext p).1 ++ (splitext p).2 = p := by
  apply String.ext
  show (splitext p).1.data ++ (splitext p).2.data = p.data
  unfold splitext splitextCore
  cases h : lastIdxOf '.' p.data with
  | none => simp
  | some di =>
    simp only
    split
    · split
      · simp [List.take_append_drop]
      · simp
    · simp

/-- The path `_generate_save_path` returns never exists in the destination:
the loop only stops at a candidate that `os.path.exists` rejects, and with
fuel `fs.length + 1` such a candidate is always reached. -/
theorem generate_save_path_fresh (fs : List String) (dir base : String) :
    generate_save_path fs dir base ∉ fs := by
  show gspLoop fs dir (splitext base).1 (splitext base).2
      (pathJoin dir base) 1 (fs.length + 1) ∉ fs
  have h0 : pathJoin dir base
      = cand dir (splitext base).1 (splitext base).2 0 := by
    show _ = pathJoin dir ((splitext base).1 ++ (splitext base).2)
    rw [splitext_append]
  rw [h0]
  exact gspLoop_fresh fs dir (splitext base).1 (splitext base).2
    (fs.length + 1) fs 1 (le_refl 1) (by omega) (fun k _ hk => hk)

/-! ## Sample inputs used by witnesses and counterexamples -/

/-- A benign environment: empty destination, every external call succeeds. -/
def sampleEnv : Env :=
  { fs := [], now := 1700000000, exifLoadOk := true, exifSaveOk := true,
    copyOk := true }

/-- A freshly constructed processor (no dry run, nothing processed). -/
def freshState : State :=
  { base_path := "export", save_path := "out", is_dry_run := false,
    processed := [] }

/-- A processor running in dry-run mode. -/
def dryState : State :=
  { base_path := "export", save_path := "out", is_dry_run := true,
    processed := [] }

/-- A processor that has already written one (URI path, directory) pair. -/
def processedState : State :=
  { base_path := "export", save_path := "out", is_dry_run := false,
    processed := [("export/your_facebook_activity/a/photo.jpg", "out/posts")] }

/-- A plain local image record. -/
def plainRecord : RawRecord :=
  { uri := some "your_facebook_activity/a/photo.jpg"
    description := none
    creation_timestamp := some 5
    media_metadata := none }

/-- A record whose EXIF block carries `taken_timestamp = 0` alongside
`creation_timestamp = 5`. -/
def zeroTakenRecord : RawRecord :=
  { uri := some "your_facebook_activity/a/photo.jpg"
    description := none
    creation_timestamp := some 5
    media_metadata := some
      { photo_metadata := some { exif_data := some [{ taken_timestamp := some 0 }] } } }

/-- A record with a nonzero `taken_timestamp = 7` and
`creation_timestamp = 5`. -/
def takenRecord : RawRecord :=
  { uri := some "your_facebook_activity/a/photo.jpg"
    description := none
    creation_timestamp := some 5
    media_metadata := some
      { photo_metadata := some { exif_data := some [{ taken_timestamp := some 7 }] } } }

/-- A record whose `creation_timestamp` is negative. -/
def negativeRecord : RawRecord :=
  { uri := some "your_facebook_activity/a/b.bin"
    description := none
    creation_timestamp := some (-1)
    media_metadata := none }

/-- An image record whose resolved timestamp exceeds every representable
`datetime` (for example a misparsed nanosecond epoch). -/
def overflowRecord : RawRecord :=
  { uri := some "your_facebook_activity/a/photo.jpg"
    description := none
    creation_timestamp := some 1000000000000000000
    media_metadata := none }

/-- An image record whose source extension is upper-case. -/
def upperRecord : RawRecord :=
  { uri := some "your_facebook_activity/a/IMG.JPG"
    description := none
    creation_timestamp := some 1700000000
    media_metadata := none }

/-- The canonical metadata of the upper-case-extension record. -/
def upperMd : Metadata := mkMetadata sampleEnv "export" upperRecord "out/posts"

/-! ## Behavioural lemmas shared between claims -/

/-- In dry-run mode `process_media_item` returns without touching the state
or the filesystem: every path either skips before the writer or hits the
dry-run early return of `_copy_image` / `_copy_non_image`. -/
theorem process_media_item_dry_run (env : Env) (d : RawRecord) (dir : String)
    (st : State) (h : st.is_dry_run = true) :
    process_media_item env d dir st = (none, st, []) := by
  unfold process_media_item copy_image copy_non_image
  simp only [h]
  split
  · rfl
  · split
    · rfl
    · split
      · simp
      · simp

/-! ## C1 — timestamp precedence -/

/-- C1 counterexample: a record carrying both `taken_timestamp = 0` (present
in the EXIF block) and `creation_timestamp = 5` resolves to `5`, not to the
`taken_timestamp`, because Python's `or` treats the integer `0` as falsy. -/
theorem C1_zero_taken_counterexample :
    extract_taken_timestamp zeroTakenRecord = some 0 ∧
    zeroTakenRecord.creation_timestamp = some 5 ∧
    (mkMetadata sampleEnv "export" zeroTakenRecord "out/posts").timestamp = 5 ∧
    (mkMetadata sampleEnv "export" zeroTakenRecord "out/posts").timestamp ≠ 0 := by
  refine ⟨rfl, rfl, rfl, ?_⟩
  decide

/-- C1 (amended): whenever the EXIF-extracted `taken_timestamp` is present
*and nonzero*, the resolved timestamp equals it, whatever the (present)
`creation_timestamp` is. -/
theorem C1_taken_precedence (env : Env) (base_path : String) (d : RawRecord)
    (dir : String) (v c : Int) (h1 : extract_taken_timestamp d = some v)
    (h2 : v ≠ 0) (_h3 : d.creation_timestamp = some c) :
    (mkMetadata env base_path d dir).timestamp = v := by
  simp [mkMetadata, pyOrInt, h1, h2]

/-- C1 witness: the amended precedence law evaluated on a record with
`taken_timestamp = 7` and `creation_timestamp = 5`. -/
theorem C1_taken_precedence_witness :
    (mkMetadata sampleEnv "export" takenRecord "out/posts").timestamp = 7 :=
  C1_taken_precedence sampleEnv "export" takenRecord "out/posts" 7 5 rfl
    (by decide) rfl

/-! ## C4 — resolved timestamp bounds -/

/-- C4 counterexample: nothing in the Resolver validates the sign of the
incoming timestamps, so a record with `creation_timestamp = -1` resolves to
a negative timestamp. -/
theorem C4_negative_counterexample :
    (mkMetadata sampleEnv "export" negativeRecord "out/videos").timestamp < 0 := by
  decide

/-- C4 (amended): the resolved timestamp is nonnegative provided the clock
and every timestamp present in the record are nonnegative. -/
theorem C4_resolved_nonneg (env : Env) (base_path : String) (d : RawRecord)
    (dir : String) (hnow : 0 ≤ env.now)
    (hc : ∀ c : Int, d.creation_timestamp = some c → 0 ≤ c)
    (ht : ∀ v : Int, extract_taken_timestamp d = some v → 0 ≤ v) :
    0 ≤ (mkMetadata env base_path d dir).timestamp := by
  have hcr : 0 ≤ d.creation_timestamp.getD env.now := by
    cases h : d.creation_timestamp with
    | none => simpa using hnow
    | some c => simpa using hc c h
  show 0 ≤ pyOrInt (extract_taken_timestamp d) (d.creation_timestamp.getD env.now)
  cases hx : extract_taken_timestamp d with
  | none => simpa [pyOrInt] using hcr
  | some v =>
    by_cases hv : v = 0
    · simpa [pyOrInt, hv] using hcr
    · simpa [pyOrInt, hv] using ht v hx

/-- C4 witness: the amended bound evaluated on a record with
`creation_timestamp = 5` under a nonnegative clock. -/
theorem C4_resolved_nonneg_witness :
    0 ≤ (mkMetadata sampleEnv "export" plainRecord "out/videos").timestamp :=
  C4_resolved_nonneg sampleEnv "export" plainRecord "out/videos" (by decide)
    (fun c hc => by injection hc with h; omega)
    (fun v hv => Option.noConfusion hv)

/-! ## C5 — idempotence within a run -/

/-- C5: once the (URI path, save directory) pair of a record is in
`processed_items`, processing it again returns before any branch runs: no
exception, no state change, no filesystem operation. -/
theorem C5_second_processing_noop (env : Env) (d : RawRecord) (dir : String)
    (st : State)
    (h : (pathJoin st.base_path (d.uri.getD ""), dir) ∈ st.processed) :
    process_media_item env d dir st = (none, st, []) := by
  by_cases h1 : pyStartsWith (d.uri.getD "") "your_facebook_activity" = false
  · simp [process_media_item, h1]
  · simp [process_media_item, h1, mkMetadata, h]

/-- C5 witness: reprocessing a record whose pair is already recorded. -/
theorem C5_second_processing_noop_witness :
    process_media_item sampleEnv plainRecord "out/posts" processedState
      = (none, processedState, []) :=
  C5_second_processing_noop sampleEnv plainRecord "out/posts" processedState
    (by decide)

/-! ## C6 — dry-run invariant -/

/-- C6: a dry-run processor performs no filesystem write over any item
sequence and its Processed-Set stays empty. -/
theorem C6_dry_run_invariant (env : Env) (items : List (RawRecord × String))
    (st : State) (hdry : st.is_dry_run = true) (hfresh : st.processed = []) :
    (run_items env items st).2 = [] ∧
    get_total_processed (run_items env items st).1 = 0 := by
  have hrun : run_items env items st = (st, []) := by
    induction items with
    | nil => rfl
    | cons hd tl ih =>
      show run_items env (hd :: tl) st = (st, [])
      unfold run_items
      rw [process_media_item_dry_run env hd.1 hd.2 st hdry]
      simpa using ih
  rw [hrun]
  simp [get_total_processed, hfresh]

/-- C6 witness: a two-item dry run leaves the trace empty and the count at
zero. -/
theorem C6_dry_run_invariant_witness :
    (run_items sampleEnv [(plainRecord, "out/posts"), (upperRecord, "out/posts")]
        dryState).2 = [] ∧
    get_total_processed
      (run_items sampleEnv [(plainRecord, "out/posts"), (upperRecord, "out/posts")]
        dryState).1 = 0 :=
  C6_dry_run_invariant sampleEnv [(plainRecord, "out/posts"), (upperRecord, "out/posts")]
    dryState rfl rfl

/-! ## C10 — record without a `uri` key -/

/-- C10: a record that omits `uri` defaults to the empty string, which fails
the export-root-marker check, so the item is skipped with no exception, no
state change and no filesystem operation. -/
theorem C10_missing_uri_skipped (env : Env) (d : RawRecord) (dir : String)
    (st : State) (h : d.uri = none) :
    process_media_item env d dir st = (none, st, []) := by
  unfold process_media_item
  rw [h]
  rfl

/-- C10 witness: a concrete record with no `uri` key is skipped. -/
theorem C10_missing_uri_skipped_witness :
    process_media_item sampleEnv
      { uri := none, description := none, creation_timestamp := some 3,
        media_metadata := none } "out/posts" freshState
      = (none, freshState, []) :=
  C10_missing_uri_skipped sampleEnv
    { uri := none, description := none, creation_timestamp := some 3,
      media_metadata := none } "out/posts" freshState rfl

/-! ## C2 — image-branch failure handling -/

/-- C2: when `_generate_filename` raises (here: a resolved timestamp no
`datetime` can represent), the `except` handler of `_copy_image` evaluates
the f-string `f"Copying image without metadata changes: {save_path}"` with
`save_path` still unbound, so an `UnboundLocalError` escapes `_copy_image`:
the exception propagates to the caller, no raw-copy fallback happens, the
item is dropped, and the Processed-Set is not extended — contradicting the
claim that every image-branch failure is caught and routed to the non-image
branch. -/
theorem C2_unbound_local_escapes :
    process_media_item sampleEnv overflowRecord "out/posts" freshState
      = (some PyError.unboundLocalError, freshState, []) := by
  rfl

/-! ## C3 — sticker routing -/

/-- C3: a synthesized sticker record whose file has an image extension
(stickers are typically `.png`) is dispatched by `process_media_item` to the
*image* branch — the trace is an EXIF-rewriting save, not a raw copy —
contradicting the claim (and the source comment "Process the sticker file
as a non-image item") that sticker records always take the non-image
branch. -/
theorem C3_png_sticker_takes_image_branch :
    process_media_item sampleEnv (sticker_record "sticker.png" 1600000000)
        "out/stickers" freshState
      = (none,
          { freshState with
              processed :=
                [("export/your_facebook_activity/posts/media/stickers_used/sticker.png",
                  "out/stickers")] },
          [FileOp.exifSave
            "export/your_facebook_activity/posts/media/stickers_used/sticker.png"
            "out/stickers/2020-09-13_05.26.40.png" 1600000000 ""]) := by
  rfl

/-! ## C7 — filename collisions -/

/-- Writing `_1` before the extension is what the conflict counter produces
first. -/
theorem conflictName_one (name ext : String) :
    conflictName name 1 ext = name ++ "_1" ++ ext := by
  apply String.ext
  rw [conflictName_data]
  show _ = (name ++ "_1").data ++ ext.data
  rw [show (name ++ "_1").data = name.data ++ ['_', '1'] from rfl,
    show Nat.toDigits 10 1 = ['1'] from rfl]
  simp

/-- C7: if the destination directory is free of both the base name and its
`_1` variant, then the first of two identically named items gets the base
path, the second gets the `_1`-suffixed path, and the two paths are
distinct. -/
theorem C7_collision_suffix (fs : List String) (dir base : String)
    (h0 : pathJoin dir base ∉ fs)
    (h1 : pathJoin dir ((splitext base).1 ++ "_1" ++ (splitext base).2) ∉ fs) :
    generate_save_path fs dir base = pathJoin dir base ∧
    generate_save_path (pathJoin dir base :: fs) dir base
      = pathJoin dir ((splitext base).1 ++ "_1" ++ (splitext base).2) ∧
    generate_save_path (pathJoin dir base :: fs) dir base
      ≠ generate_save_path fs dir base := by
  have hfirst : generate_save_path fs dir base = pathJoin dir base := by
    show gspLoop fs dir (splitext base).1 (splitext base).2
        (pathJoin dir base) 1 (fs.length + 1) = pathJoin dir base
    simp only [gspLoop]
    rw [if_neg h0]
  have hc1 : pathJoin dir (conflictName (splitext base).1 1 (splitext base).2)
      = pathJoin dir ((splitext base).1 ++ "_1" ++ (splitext base).2) := by
    rw [conflictName_one]
  have hbase : pathJoin dir base
      = cand dir (splitext base).1 (splitext base).2 0 := by
    show _ = pathJoin dir ((splitext base).1 ++ (splitext base).2)
    rw [splitext_append]
  have hne1 : pathJoin dir (conflictName (splitext base).1 1 (splitext base).2)
      ≠ pathJoin dir base := by
    intro he
    have hlt := cand_zero_length_lt dir (splitext base).1 (splitext base).2 0
    have hc : cand dir (splitext base).1 (splitext base).2 (0 + 1)
        = pathJoin dir (conflictName (splitext base).1 1 (splitext base).2) := rfl
    rw [hc, he, hbase] at hlt
    omega
  have hsecond : generate_save_path (pathJoin dir base :: fs) dir base
      = pathJoin dir ((splitext base).1 ++ "_1" ++ (splitext base).2) := by
    show gspLoop (pathJoin dir base :: fs) dir (splitext base).1
        (splitext base).2 (pathJoin dir base) 1 ((pathJoin dir base :: fs).length + 1)
      = _
    simp only [List.length_cons, gspLoop]
    rw [if_pos (List.mem_cons_self _ _)]
    rw [if_neg ?_, hc1]
    intro hmem
    rcases List.mem_cons.mp hmem with he | hin
    · exact hne1 he
    · rw [hc1] at hin
      exact h1 hin
  refine ⟨hfirst, hsecond, ?_⟩
  rw [hfirst, hsecond, ← hc1]
  exact hne1

/-- C7 witness: two items named `2023-11-14_14.13.20.jpg` written to a fresh
directory get distinct paths, the second suffixed `_1`. -/
theorem C7_collision_suffix_witness :
    generate_save_path [] "dir" "2023-11-14_14.13.20.jpg"
      = pathJoin "dir" "2023-11-14_14.13.20.jpg" ∧
    generate_save_path (pathJoin "dir" "2023-11-14_14.13.20.jpg" :: [])
        "dir" "2023-11-14_14.13.20.jpg"
      = pathJoin "dir" ((splitext "2023-11-14_14.13.20.jpg").1 ++ "_1" ++
          (splitext "2023-11-14_14.13.20.jpg").2) ∧
    generate_save_path (pathJoin "dir" "2023-11-14_14.13.20.jpg" :: [])
        "dir" "2023-11-14_14.13.20.jpg"
      ≠ generate_save_path [] "dir" "2023-11-14_14.13.20.jpg" :=
  C7_collision_suffix [] "dir" "2023-11-14_14.13.20.jpg"
    (List.not_mem_nil _) (List.not_mem_nil _)

/-! ## C8 — generated base filename -/

/-- C8 counterexample: for a source file `IMG.JPG`, the generated name keeps
the upper-case extension `.JPG`; it differs from the claimed
formatted-timestamp-plus-lower-cased-extension form. -/
theorem C8_extension_case_counterexample :
    generate_filename upperMd = "2023-11-14_14.13.20.JPG" ∧
    generate_filename upperMd
      ≠ formatLATimestamp upperMd.timestamp ++
          pyLower (splitext (basename upperMd.uri_path)).2 := by
  refine ⟨rfl, ?_⟩
  decide

/-- C8 (amended): the generated base filename is the resolved timestamp
rendered in the fixed `America/Los_Angeles` timezone as
`YYYY-MM-DD_HH.MM.SS`, followed by the source file's extension *unchanged*
(its original case preserved); concretely, timestamp `1700000000` renders as
`2023-11-14_14.13.20`. -/
theorem C8_filename_format :
    (∀ md : Metadata,
      generate_filename md
        = formatLATimestamp md.timestamp ++ (splitext (basename md.uri_path)).2) ∧
    formatLATimestamp 1700000000 = "2023-11-14_14.13.20" :=
  ⟨fun _ => rfl, by rfl⟩

/-! ## C9 — save paths never collide with existing files -/

/-- C9: `_generate_save_path` always returns a path (its only `return` is
the unconditional `return file_path`, so the `if save_path is None` guards
in both writer branches are dead code), and the returned path never exists
in the destination: the conflict loop stops only at a candidate
`os.path.exists` rejects, and because the candidate paths are pairwise
distinct a free candidate is always reached. -/
theorem C9_save_path_never_exists (fs : List String)
    (directory base_file_name : String) :
    generate_save_path fs directory base_file_name ∉ fs :=
  generate_save_path_fresh fs directory base_file_name

end MetaBridge
